import Mathlib

/-!
Shallow embedding of the book-record validator (src/main.py, a pydantic v1
model `Book` with a pre root validator `check_isbn10_and_isbn13`, a field
validator `isbn_10_validator`, and `Config.allow_mutation = False`).

Raw input records are JSON-like key-value mappings; we model the JSON values
occurring in this program as strings, integer-valued numbers and null.
Numbers are modelled as integers (the price field is never inspected beyond
type conversion, so the fractional part of a float plays no role in any
property below).

Error semantics follow pydantic v1 exactly:
  - the pre root validator runs first, on the raw mapping; exceptions other
    than ValueError/TypeError/AssertionError (in particular the custom
    ISBNMissingError, and the KeyError from the title lookup) propagate raw;
  - fields are then validated in declaration order; per-field errors
    (missing required field, None where not allowed, bad numeric value, and
    TypeError raised inside a validator) are collected into one
    ValidationError;
  - the custom ISBN10FormatError is not a ValueError/TypeError/AssertionError,
    so pydantic does not catch it: it aborts validation immediately and
    propagates raw, discarding any errors collected so far;
  - a field validator attached to an Optional field runs when the key is
    supplied, even when the supplied value is None; it is skipped only when
    the key is absent (the field then silently takes its None default).
-/

/-- A JSON-like value as it occurs in the raw book records: a string, an
integer-valued number, or null. -/
inductive Value where
  | vStr (s : String)
  | vNum (n : Int)
  | vNull
deriving DecidableEq, Repr

deriving instance DecidableEq for Except

/-- A raw record: a key-value mapping, modelled as an association list with
first-match lookup (keys of a parsed JSON object are unique). -/
abbrev RawMapping := List (String × Value)

/-- Dictionary lookup: the value stored under `key`, if the key is present. -/
def lookupKey (values : RawMapping) (key : String) : Option Value :=
  match values with
  | [] => none
  | (k, v) :: rest => if k = key then some v else lookupKey rest key

/-- The character classification used by the filtering step of
`isbn_10_validator`: the Python expression `char.isdigit() or char in "Xx"`
restricted to its digit part. Python `str.isdigit` is Unicode-aware: it
returns True for every character of Unicode category Nd (decimal digits),
not only for the ASCII digits 0-9. We model it on the alphabet exercised in
this development: the ASCII digits together with the ARABIC-INDIC DIGITs
U+0660 to U+0669, which Python classifies as digits and converts with
`int(char)` to their decimal value. -/
def pyIsdigit (c : Char) : Bool :=
  c.isDigit || (0x660 ≤ c.toNat && c.toNat ≤ 0x669)

/-- The filtering step of `isbn_10_validator` (src/main.py line 50):
`[char for char in value if char.isdigit() or char in "Xx"]`. -/
def isbnChars (value : String) : List Char :=
  value.data.filter (fun c => pyIsdigit c || c = 'X' || c = 'x')

/-- The inner helper `char_to_int` of `isbn_10_validator`: `10` for `X`/`x`,
otherwise `int(char)`, which maps a decimal-digit character to its decimal
value (for ASCII digits `c - 48`, for ARABIC-INDIC digits `c - 0x660`). -/
def char_to_int (c : Char) : Nat :=
  if c = 'X' || c = 'x' then 10
  else if 0x660 ≤ c.toNat && c.toNat ≤ 0x669 then c.toNat - 0x660
  else c.toNat - '0'.toNat

/-- The weighted checksum of `isbn_10_validator`:
`sum((10 - i) * char_to_int(x) for i, x in enumerate(chars))`. -/
def weighted_sum (chars : List Char) : Nat :=
  (chars.enum.map (fun p => (10 - p.1) * char_to_int p.2)).sum

/-- The custom exception `ISBN10FormatError` of src/main.py: it carries the
offending (unfiltered) value and a message. -/
structure ISBN10FormatError where
  value : String
  message : String
deriving DecidableEq, Repr

/-- The field validator `isbn_10_validator` (src/main.py lines 46-65):
filter the value to its digit/X characters, require exactly 10 of them,
require the weighted sum divisible by 11, and return the original value. -/
def isbn_10_validator (value : String) : Except ISBN10FormatError String :=
  let chars := isbnChars value
  if chars.length ≠ 10 then
    Except.error { value := value, message := "ISBN-10 must be 10 digits." }
  else if weighted_sum chars % 11 ≠ 0 then
    Except.error { value := value, message := "ISBN-10 weighted sum must be divisible by 11." }
  else
    Except.ok value

/-- A per-field error collected by pydantic into a ValidationError:
a required field was absent, a non-Optional field received null, a numeric
field received an unparsable value, or a field validator raised a TypeError
(as `isbn_10_validator` does when handed None). -/
inductive FieldError where
  | missing (field : String)
  | noneNotAllowed (field : String)
  | floatError (field : String)
  | typeError (field : String)
deriving DecidableEq, Repr

/-- The failure outcomes of validating one raw record:
  - `isbnMissing`: the custom ISBNMissingError raised by the root validator,
    carrying the record title value and a message, propagating raw;
  - `keyError`: a raw Python KeyError (raised by `values["title"]` when the
    title key is absent), propagating raw;
  - `isbn10Format`: the custom ISBN10FormatError, propagating raw;
  - `validationError`: the pydantic ValidationError collecting the per-field
    errors in field declaration order. -/
inductive VError where
  | isbnMissing (title : Value) (message : String)
  | keyError (key : String)
  | isbn10Format (value : String) (message : String)
  | validationError (errors : List FieldError)
deriving DecidableEq, Repr

/-- The validated, immutable record produced on success, with the seven
declared fields of the pydantic model `Book` in declaration order. -/
structure Book where
  title : String
  author : String
  publisher : String
  price : Int
  isbn_10 : Option String
  isbn_13 : Option String
  subtitle : Option String
deriving DecidableEq, Repr

/-- The pre root validator `check_isbn10_and_isbn13` (src/main.py lines
37-44): if neither an `isbn_10` key nor an `isbn_13` key is present, raise
`ISBNMissingError(title=values["title"], message="Must have at least one ISBN.")`.
The title lookup is an unguarded subscript, so a record that also lacks a
title key raises KeyError instead. Otherwise the mapping passes through. -/
def check_isbn10_and_isbn13 (values : RawMapping) : Except VError RawMapping :=
  if (lookupKey values "isbn_10").isNone && (lookupKey values "isbn_13").isNone then
    match lookupKey values "title" with
    | some t => Except.error (VError.isbnMissing t "Must have at least one ISBN.")
    | none => Except.error (VError.keyError "title")
  else
    Except.ok values

/-- Validation of one required `str` field: absent means a missing-field
error; null is not allowed; a string passes; a number is coerced with
`str(...)` (pydantic v1 str fields coerce numeric input). -/
def validate_str_field (field : String) (values : RawMapping) : Except FieldError String :=
  match lookupKey values field with
  | none => Except.error (FieldError.missing field)
  | some (Value.vStr s) => Except.ok s
  | some (Value.vNum n) => Except.ok (toString n)
  | some Value.vNull => Except.error (FieldError.noneNotAllowed field)

/-- Validation of the required `float` field `price`: absent means a
missing-field error; null is not allowed; a number passes; a numeric string
is parsed (we model the integral parses exercised here; prices are modelled
as integers throughout). -/
def validate_float_field (field : String) (values : RawMapping) : Except FieldError Int :=
  match lookupKey values field with
  | none => Except.error (FieldError.missing field)
  | some (Value.vNum n) => Except.ok n
  | some (Value.vStr s) =>
      match s.toInt? with
      | some n => Except.ok n
      | none => Except.error (FieldError.floatError field)
  | some Value.vNull => Except.error (FieldError.noneNotAllowed field)

/-- Validation of an `Optional[str]` field with no custom validator
(`isbn_13`, `subtitle`): an absent key or a null yields None, a string is
kept, a number is coerced with `str(...)`. This can never fail. -/
def plain_optional_str (field : String) (values : RawMapping) : Option String :=
  match lookupKey values field with
  | none => none
  | some Value.vNull => none
  | some (Value.vStr s) => some s
  | some (Value.vNum n) => some (toString n)

/-- Validation of the `Optional[str]` field `isbn_10`, which carries the
custom validator. Pydantic v1 skips the validator only when the key is
absent (the field then defaults to None); a supplied null reaches the
validator, whose list comprehension iterates over None and raises TypeError,
which pydantic catches as a per-field error. A supplied string (or number
coerced to string) runs `isbn_10_validator`; its custom ISBN10FormatError is
not caught by pydantic (outer error), aborting the whole validation. -/
def validate_isbn_10_field (values : RawMapping) :
    Except ISBN10FormatError (Except FieldError (Option String)) :=
  match lookupKey values "isbn_10" with
  | none => Except.ok (Except.ok none)
  | some Value.vNull => Except.ok (Except.error (FieldError.typeError "isbn_10"))
  | some (Value.vStr s) =>
      match isbn_10_validator s with
      | Except.ok r => Except.ok (Except.ok (some r))
      | Except.error e => Except.error e
  | some (Value.vNum n) =>
      match isbn_10_validator (toString n) with
      | Except.ok r => Except.ok (Except.ok (some r))
      | Except.error e => Except.error e

/-- The error-list contribution of one field result. -/
def errList {α : Type} : Except FieldError α → List FieldError
  | Except.error e => [e]
  | Except.ok _ => []

/-- Validation of one raw record into a `Book`, following pydantic v1
`validate_model` on the model of src/main.py: first the pre root validator
`check_isbn10_and_isbn13` on the raw mapping, then the fields in declaration
order with errors collected, except that an ISBN10FormatError raised inside
`isbn_10_validator` escapes immediately and discards the collected errors. -/
def validateBook (values : RawMapping) : Except VError Book :=
  match check_isbn10_and_isbn13 values with
  | Except.error e => Except.error e
  | Except.ok vals =>
    let rTitle := validate_str_field "title" vals
    let rAuthor := validate_str_field "author" vals
    let rPublisher := validate_str_field "publisher" vals
    let rPrice := validate_float_field "price" vals
    match validate_isbn_10_field vals with
    | Except.error e => Except.error (VError.isbn10Format e.value e.message)
    | Except.ok rIsbn10 =>
      let rIsbn13 := plain_optional_str "isbn_13" vals
      let rSubtitle := plain_optional_str "subtitle" vals
      match rTitle, rAuthor, rPublisher, rPrice, rIsbn10 with
      | Except.ok t, Except.ok a, Except.ok p, Except.ok pr, Except.ok i10 =>
          Except.ok { title := t, author := a, publisher := p, price := pr,
                      isbn_10 := i10, isbn_13 := rIsbn13, subtitle := rSubtitle }
      | _, _, _, _, _ =>
          Except.error (VError.validationError
            (errList rTitle ++ errList rAuthor ++ errList rPublisher ++
             errList rPrice ++ errList rIsbn10))

/-- The names of the declared fields of the model `Book`. -/
inductive FieldName where
  | title
  | author
  | publisher
  | price
  | isbn_10
  | isbn_13
  | subtitle
deriving DecidableEq, Repr

/-- The string name of a declared field. -/
def FieldName.name : FieldName → String
  | FieldName.title => "title"
  | FieldName.author => "author"
  | FieldName.publisher => "publisher"
  | FieldName.price => "price"
  | FieldName.isbn_10 => "isbn_10"
  | FieldName.isbn_13 => "isbn_13"
  | FieldName.subtitle => "subtitle"

/-- The declared field set of `Book`, in declaration order (the iteration
order of the instance dictionary). -/
def Book.fields : List FieldName :=
  [FieldName.title, FieldName.author, FieldName.publisher, FieldName.price,
   FieldName.isbn_10, FieldName.isbn_13, FieldName.subtitle]

/-- The attribute store of a constructed `Book` (the instance dictionary):
each declared field name bound to its JSON-like value. -/
def Book.attr (b : Book) : FieldName → Value
  | FieldName.title => Value.vStr b.title
  | FieldName.author => Value.vStr b.author
  | FieldName.publisher => Value.vStr b.publisher
  | FieldName.price => Value.vNum b.price
  | FieldName.isbn_10 =>
      match b.isbn_10 with
      | some s => Value.vStr s
      | none => Value.vNull
  | FieldName.isbn_13 =>
      match b.isbn_13 with
      | some s => Value.vStr s
      | none => Value.vNull
  | FieldName.subtitle =>
      match b.subtitle with
      | some s => Value.vStr s
      | none => Value.vNull

/-- The `Config` of the model in src/main.py lines 67-70. -/
def Config.allow_mutation : Bool := false

/-- Attribute assignment on a constructed `Book`, following pydantic v1
BaseModel `__setattr__` for a declared field: when the Config forbids
mutation it raises `TypeError("Book" is immutable and does not support item
assignment)`; otherwise it would store the assigned value in the instance
dictionary unvalidated. -/
def Book.setattr (b : Book) (field : FieldName) (v : Value) :
    Except String (FieldName → Value) :=
  if Config.allow_mutation then
    Except.ok (fun f => if f = field then v else b.attr f)
  else
    Except.error "\"Book\" is immutable and does not support item assignment"

/-- The `dict(include=s)` projection of a `Book` (pydantic v1 `_iter` with
`allowed_keys = dict keys ∩ include`): the declared fields whose name is in
`s`, in declaration order, rendered as a key-value mapping. -/
def Book.dict_include (b : Book) (s : List String) : List (String × Value) :=
  (Book.fields.filter (fun f => s.contains f.name)).map (fun f => (f.name, b.attr f))

/-- The `dict(exclude=s)` projection of a `Book` (pydantic v1 `_iter` with
`allowed_keys = dict keys - exclude`): the declared fields whose name is not
in `s`, in declaration order, rendered as a key-value mapping. -/
def Book.dict_exclude (b : Book) (s : List String) : List (String × Value) :=
  (Book.fields.filter (fun f => !s.contains f.name)).map (fun f => (f.name, b.attr f))

/-- The string written in source as the filtered form of an ISBN-10 value:
the digit/X subsequence reassembled into a string. -/
def filtered (s : String) : String := String.mk (isbnChars s)

/-- A well-formed raw record whose isbn_10 is the valid "0471958697". -/
def raw_ok_1 : RawMapping :=
  [("title", Value.vStr "The Pragmatic Programmer"),
   ("author", Value.vStr "David Thomas"),
   ("publisher", Value.vStr "Addison-Wesley"),
   ("price", Value.vNum 41),
   ("isbn_10", Value.vStr "0471958697")]

/-- The Book produced by validating `raw_ok_1`. -/
def book_ok_1 : Book :=
  { title := "The Pragmatic Programmer", author := "David Thomas",
    publisher := "Addison-Wesley", price := 41,
    isbn_10 := some "0471958697", isbn_13 := none, subtitle := none }

/-- The same record with the last isbn_10 digit changed, breaking the checksum. -/
def raw_bad_checksum : RawMapping :=
  [("title", Value.vStr "The Pragmatic Programmer"),
   ("author", Value.vStr "David Thomas"),
   ("publisher", Value.vStr "Addison-Wesley"),
   ("price", Value.vNum 41),
   ("isbn_10", Value.vStr "0471958698")]

/-- A well-formed raw record whose isbn_10 ends in the check character X. -/
def raw_ok_X : RawMapping :=
  [("title", Value.vStr "Clean Code"),
   ("author", Value.vStr "Robert Martin"),
   ("publisher", Value.vStr "Prentice Hall"),
   ("price", Value.vNum 33),
   ("isbn_10", Value.vStr "155404295X")]

/-- The Book produced by validating `raw_ok_X`. -/
def book_ok_X : Book :=
  { title := "Clean Code", author := "Robert Martin",
    publisher := "Prentice Hall", price := 33,
    isbn_10 := some "155404295X", isbn_13 := none, subtitle := none }

/-- A well-formed raw record whose isbn_10 carries hyphens. -/
def raw_hyphen : RawMapping :=
  [("title", Value.vStr "The Pragmatic Programmer"),
   ("author", Value.vStr "David Thomas"),
   ("publisher", Value.vStr "Addison-Wesley"),
   ("price", Value.vNum 41),
   ("isbn_10", Value.vStr "0-471-95869-7")]

/-- The Book produced by validating `raw_hyphen`: the stored isbn_10 is the
original hyphenated string. -/
def book_hyphen : Book :=
  { title := "The Pragmatic Programmer", author := "David Thomas",
    publisher := "Addison-Wesley", price := 41,
    isbn_10 := some "0-471-95869-7", isbn_13 := none, subtitle := none }

/-- A raw record in which both identifier keys are present but both values
are null. -/
def raw_both_null : RawMapping :=
  [("title", Value.vStr "Untitled"), ("author", Value.vStr "Anon"),
   ("publisher", Value.vStr "Nobody"), ("price", Value.vNum 1),
   ("isbn_10", Value.vNull), ("isbn_13", Value.vNull)]

/-- A raw record whose isbn_10 key is present with a null value while a
well-formed isbn_13 is supplied. -/
def raw_isbn10_null : RawMapping :=
  [("title", Value.vStr "Untitled"), ("author", Value.vStr "Anon"),
   ("publisher", Value.vStr "Nobody"), ("price", Value.vNum 1),
   ("isbn_10", Value.vNull), ("isbn_13", Value.vStr "9780471958697")]

/-- ARABIC-INDIC DIGIT ZERO (U+0660), a non-ASCII character that Python
`str.isdigit` classifies as a digit and `int(...)` converts to 0. -/
def arabicZero : Char := Char.ofNat 0x660

/-- The string "0471958697" with its leading ASCII zero replaced by
ARABIC-INDIC DIGIT ZERO; its weighted sum is unchanged. -/
def arabicIsbn : String := String.mk (arabicZero :: "471958697".data)

/-- A raw record with no isbn_10 key at all and a well-formed isbn_13. -/
def raw_isbn13_only : RawMapping :=
  [("title", Value.vStr "Untitled"), ("author", Value.vStr "Anon"),
   ("publisher", Value.vStr "Nobody"), ("price", Value.vNum 1),
   ("isbn_13", Value.vStr "9780471958697")]

/-! Helper lemmas shared by the claim theorems. -/

/-- Lookups ignore a leading binding for a different key. -/
theorem lookupKey_cons_ne (k key : String) (v : Value) (values : RawMapping)
    (h : k ≠ key) : lookupKey ((k, v) :: values) key = lookupKey values key := by
  simp [lookupKey, h]

/-- Filtering a list twice with the same predicate equals filtering once. -/
theorem filter_idem {α : Type} (p : α → Bool) (l : List α) :
    (l.filter p).filter p = l.filter p := by
  induction l with
  | nil => rfl
  | cons a t ih =>
      by_cases h : p a
      · simp [List.filter_cons, h, ih]
      · simp [List.filter_cons, h, ih]

/-- The digit/X subsequence of the filtered form of a value is the digit/X
subsequence of the value itself. -/
theorem isbnChars_filtered (s : String) : isbnChars (filtered s) = isbnChars s := by
  unfold isbnChars filtered
  exact filter_idem _ _

/-- Characterization of success of `isbn_10_validator`: it succeeds exactly
when the filtered subsequence has length 10 and weighted sum divisible by
11, and then it returns the original value. -/
theorem isbn_10_validator_ok_iff (s r : String) :
    isbn_10_validator s = Except.ok r ↔
      r = s ∧ (isbnChars s).length = 10 ∧ weighted_sum (isbnChars s) % 11 = 0 := by
  simp only [isbn_10_validator]
  split_ifs with h1 h2
  · simp [h1]
  · simp [h2]
  · simp only [not_not] at h1 h2
    simp [h1, h2, eq_comm]

/-- Characterization of the keys of the include projection. -/
theorem mem_dict_include_iff (b : Book) (s : List String) (n : String) :
    n ∈ (Book.dict_include b s).map Prod.fst ↔
      ∃ f, f ∈ Book.fields ∧ f.name ∈ s ∧ f.name = n := by
  simp [Book.dict_include, and_assoc]

/-- Characterization of the keys of the exclude projection. -/
theorem mem_dict_exclude_iff (b : Book) (s : List String) (n : String) :
    n ∈ (Book.dict_exclude b s).map Prod.fst ↔
      ∃ f, f ∈ Book.fields ∧ f.name ∉ s ∧ f.name = n := by
  simp [Book.dict_exclude, and_assoc]

/-! Claim theorems. -/

/-- C1: The ISBN-10 checksum is the weighted sum over the 10 filtered
characters with weight (10 - i) at 0-indexed position i, where X/x maps to
10 and a digit character to its numeric value; a length-10 filtered value is
accepted exactly when the sum is divisible by 11. Concretely, a record with
isbn_10 "0471958697" validates, one with "0471958698" fails with the
ISBN10FormatError checksum message, and one with "155404295X" validates,
exercising the X-to-10 mapping. -/
theorem isbn10_checksum_rule :
    (∀ c0 c1 c2 c3 c4 c5 c6 c7 c8 c9 : Char,
        weighted_sum [c0, c1, c2, c3, c4, c5, c6, c7, c8, c9] =
          10 * char_to_int c0 + 9 * char_to_int c1 + 8 * char_to_int c2 +
          7 * char_to_int c3 + 6 * char_to_int c4 + 5 * char_to_int c5 +
          4 * char_to_int c6 + 3 * char_to_int c7 + 2 * char_to_int c8 +
          1 * char_to_int c9)
    ∧ char_to_int 'X' = 10
    ∧ char_to_int 'x' = 10
    ∧ (∀ c ∈ "0123456789".data, char_to_int c = c.toNat - 48)
    ∧ (∀ s : String, (isbnChars s).length = 10 →
        (isbn_10_validator s = Except.ok s ↔ weighted_sum (isbnChars s) % 11 = 0))
    ∧ validateBook raw_ok_1 = Except.ok book_ok_1
    ∧ validateBook raw_bad_checksum =
        Except.error (VError.isbn10Format "0471958698"
          "ISBN-10 weighted sum must be divisible by 11.")
    ∧ validateBook raw_ok_X = Except.ok book_ok_X := by
  refine ⟨?_, rfl, rfl, by decide, ?_, rfl, rfl, rfl⟩
  · intro c0 c1 c2 c3 c4 c5 c6 c7 c8 c9
    simp [weighted_sum, List.enum, List.enumFrom]
    ring
  · intro s hs
    rw [isbn_10_validator_ok_iff]
    simp [hs]

/-- C1 witness: the checksum characterization applied to the concrete value
"0471958697", whose filtered subsequence has length 10. -/
theorem isbn10_checksum_rule_witness :
    (isbnChars "0471958697").length = 10 ∧
      (isbn_10_validator "0471958697" = Except.ok "0471958697" ↔
        weighted_sum (isbnChars "0471958697") % 11 = 0) :=
  ⟨by rfl, isbn10_checksum_rule.2.2.2.2.1 "0471958697" (by rfl)⟩

/-- C2 counterexample: a record in which both identifier keys are present
with null values is not rejected with the missing-identifier error; the
presence check passes (both keys exist) and validation instead fails with
the TypeError raised by the ISBN-10 validator receiving None. -/
theorem both_null_not_missing_identifier :
    validateBook raw_both_null =
        Except.error (VError.validationError [FieldError.typeError "isbn_10"]) ∧
      validateBook raw_both_null ≠
        Except.error (VError.isbnMissing (Value.vStr "Untitled")
          "Must have at least one ISBN.") :=
  ⟨rfl, by decide⟩

/-- C2 amended: when neither identifier key is present and a title key is
present, validation fails with the missing-identifier error before any
per-field check (no other hypothesis on the mapping is needed); when both
identifier keys are present with null values, the presence check passes and
validation fails with the per-field TypeError on isbn_10 instead. -/
theorem missing_identifier_amended :
    (∀ (values : RawMapping) (t : Value),
        lookupKey values "isbn_10" = none →
        lookupKey values "isbn_13" = none →
        lookupKey values "title" = some t →
        validateBook values =
          Except.error (VError.isbnMissing t "Must have at least one ISBN."))
    ∧ validateBook raw_both_null =
        Except.error (VError.validationError [FieldError.typeError "isbn_10"]) := by
  refine ⟨?_, rfl⟩
  intro values t h10 h13 ht
  unfold validateBook check_isbn10_and_isbn13
  rw [h10, h13, ht]
  rfl

/-- C2 witness: the amended rule applied to a mapping holding only a title. -/
theorem missing_identifier_amended_witness :
    lookupKey [("title", Value.vStr "Untitled")] "isbn_10" = none ∧
    lookupKey [("title", Value.vStr "Untitled")] "isbn_13" = none ∧
    lookupKey [("title", Value.vStr "Untitled")] "title" = some (Value.vStr "Untitled") ∧
    validateBook [("title", Value.vStr "Untitled")] =
      Except.error (VError.isbnMissing (Value.vStr "Untitled")
        "Must have at least one ISBN.") :=
  ⟨rfl, rfl, rfl, missing_identifier_amended.1 _ _ rfl rfl rfl⟩

/-- C3 counterexample: a record whose isbn_10 key is present with a null
value, whose isbn_13 is present and well-formed, and whose required fields
are well-typed does not validate successfully: the field validator runs on
the null and the record is rejected with a per-field TypeError. -/
theorem isbn10_null_counterexample :
    validateBook raw_isbn10_null =
        Except.error (VError.validationError [FieldError.typeError "isbn_10"]) ∧
      (validateBook raw_isbn10_null).isOk = false :=
  ⟨rfl, rfl⟩

/-- C3 amended: the ISBN-10 validator is skipped only when the isbn_10 key
is absent; a supplied null reaches the validator and validation fails with
exactly the per-field TypeError on isbn_10, while a mapping with no isbn_10
key, an isbn_13 key present, and well-typed required fields validates
successfully with isbn_10 = None. -/
theorem isbn10_null_behavior :
    (∀ (values : RawMapping) (t a p : String) (pr : Int),
        lookupKey values "title" = some (Value.vStr t) →
        lookupKey values "author" = some (Value.vStr a) →
        lookupKey values "publisher" = some (Value.vStr p) →
        lookupKey values "price" = some (Value.vNum pr) →
        lookupKey values "isbn_10" = some Value.vNull →
        validateBook values =
          Except.error (VError.validationError [FieldError.typeError "isbn_10"]))
    ∧ (∀ (values : RawMapping) (t a p : String) (pr : Int) (v13 : Value),
        lookupKey values "title" = some (Value.vStr t) →
        lookupKey values "author" = some (Value.vStr a) →
        lookupKey values "publisher" = some (Value.vStr p) →
        lookupKey values "price" = some (Value.vNum pr) →
        lookupKey values "isbn_10" = none →
        lookupKey values "isbn_13" = some v13 →
        validateBook values =
          Except.ok { title := t, author := a, publisher := p, price := pr,
                      isbn_10 := none,
                      isbn_13 := plain_optional_str "isbn_13" values,
                      subtitle := plain_optional_str "subtitle" values }) := by
  constructor
  · intro values t a p pr h1 h2 h3 h4 h5
    simp [validateBook, check_isbn10_and_isbn13, validate_str_field, validate_float_field,
      validate_isbn_10_field, errList, h1, h2, h3, h4, h5]
  · intro values t a p pr v13 h1 h2 h3 h4 h5 h6
    simp [validateBook, check_isbn10_and_isbn13, validate_str_field, validate_float_field,
      validate_isbn_10_field, h1, h2, h3, h4, h5, h6]

/-- C3 witness: the success half of the amended rule applied to a concrete
record with no isbn_10 key and a well-formed isbn_13. -/
theorem isbn10_null_behavior_witness :
    lookupKey raw_isbn13_only "isbn_10" = none ∧
    lookupKey raw_isbn13_only "isbn_13" = some (Value.vStr "9780471958697") ∧
    validateBook raw_isbn13_only =
      Except.ok { title := "Untitled", author := "Anon", publisher := "Nobody",
                  price := 1, isbn_10 := none,
                  isbn_13 := plain_optional_str "isbn_13" raw_isbn13_only,
                  subtitle := plain_optional_str "subtitle" raw_isbn13_only } :=
  ⟨rfl, rfl, isbn10_null_behavior.2 raw_isbn13_only "Untitled" "Anon" "Nobody" 1
    (Value.vStr "9780471958697") rfl rfl rfl rfl rfl rfl⟩

/-- C4 counterexample: a record with neither identifier key and no title key
does not fail with the missing-identifier error: the unguarded title lookup
in the root validator raises a KeyError instead. -/
theorem missing_title_counterexample :
    validateBook [("author", Value.vStr "Anon")] =
        Except.error (VError.keyError "title") ∧
      validateBook [("author", Value.vStr "Anon")] ≠
        Except.error (VError.isbnMissing Value.vNull "Must have at least one ISBN.") :=
  ⟨rfl, by decide⟩

/-- C4 amended: when neither identifier key is present, the failure carries
the record title value and the fixed message if a title key is present;
when the title key is also absent, validation fails with a KeyError on
"title" rather than with the missing-identifier error. -/
theorem missing_title_behavior :
    (∀ (values : RawMapping) (t : Value),
        lookupKey values "isbn_10" = none →
        lookupKey values "isbn_13" = none →
        lookupKey values "title" = some t →
        validateBook values =
          Except.error (VError.isbnMissing t "Must have at least one ISBN."))
    ∧ (∀ values : RawMapping,
        lookupKey values "isbn_10" = none →
        lookupKey values "isbn_13" = none →
        lookupKey values "title" = none →
        validateBook values = Except.error (VError.keyError "title")) := by
  constructor
  · intro values t h10 h13 ht
    unfold validateBook check_isbn10_and_isbn13
    rw [h10, h13, ht]
    rfl
  · intro values h10 h13 ht
    unfold validateBook check_isbn10_and_isbn13
    rw [h10, h13, ht]
    rfl

/-- C4 witness: the title-absent half of the amended rule applied to the
empty mapping. -/
theorem missing_title_behavior_witness :
    lookupKey ([] : RawMapping) "isbn_10" = none ∧
    lookupKey ([] : RawMapping) "title" = none ∧
    validateBook [] = Except.error (VError.keyError "title") :=
  ⟨rfl, rfl, missing_title_behavior.2 [] rfl rfl rfl⟩

/-- C5 counterexample: the filter does not keep only ASCII digits and X/x.
ARABIC-INDIC DIGIT ZERO (U+0660) is neither an ASCII digit (Char.isDigit is
exactly the ASCII range 0-9) nor X nor x, yet the filter keeps it, and it
reaches the length check and the checksum: the value "0471958697" with its
leading zero replaced by U+0660 still has 10 filtered characters, the same
weighted sum, and is accepted by the validator. -/
theorem ascii_filter_counterexample :
    isbnChars (String.mk [arabicZero]) = [arabicZero] ∧
      arabicZero.isDigit = false ∧ arabicZero ≠ 'X' ∧ arabicZero ≠ 'x' ∧
      (isbnChars arabicIsbn).length = 10 ∧
      isbn_10_validator arabicIsbn = Except.ok arabicIsbn :=
  ⟨rfl, rfl, by decide, by decide, rfl, rfl⟩

/-- C5 amended: the filtering step keeps exactly the characters classified
as digits by the Unicode-aware Python str.isdigit (which accepts non-ASCII
decimal digits such as U+0660, beyond the ASCII range) together with the
letters X and x, preserving their order as a subsequence of the input, and
discards every other character. -/
theorem filter_characterization :
    ∀ s : String,
      (isbnChars s).Sublist s.data ∧
      (∀ c : Char, c ∈ isbnChars s ↔
        c ∈ s.data ∧ (pyIsdigit c || c = 'X' || c = 'x') = true) := by
  intro s
  constructor
  · exact List.filter_sublist s.data
  · intro c
    simp [isbnChars, List.mem_filter]

/-- C6: validation of an isbn_10 value is equivalent to validation of its
filtered form, the validator returns the original string on success, and
concretely the hyphenated "0-471-95869-7" is accepted exactly as its
filtered form "0471958697" is, with the Book storing the original
hyphenated string. -/
theorem filter_equivalence :
    (∀ s : String,
        isbn_10_validator s = Except.ok s ↔
          isbn_10_validator (filtered s) = Except.ok (filtered s))
    ∧ (∀ s r : String, isbn_10_validator s = Except.ok r → r = s)
    ∧ validateBook raw_hyphen = Except.ok book_hyphen
    ∧ book_hyphen.isbn_10 = some "0-471-95869-7"
    ∧ filtered "0-471-95869-7" = "0471958697" := by
  refine ⟨?_, ?_, rfl, rfl, rfl⟩
  · intro s
    rw [isbn_10_validator_ok_iff, isbn_10_validator_ok_iff, isbnChars_filtered]
    simp
  · intro s r h
    exact ((isbn_10_validator_ok_iff s r).1 h).1

/-- C6 witness: the returned-value property applied to the concrete accepted
hyphenated value. -/
theorem filter_equivalence_witness :
    isbn_10_validator "0-471-95869-7" = Except.ok "0-471-95869-7" ∧
      ("0-471-95869-7" : String) = "0-471-95869-7" :=
  ⟨rfl, filter_equivalence.2.1 "0-471-95869-7" "0-471-95869-7" rfl⟩

/-- C7: a value whose filtered digit/X subsequence does not have length 10
is rejected with the ISBN10FormatError carrying the original unfiltered
value and the message "ISBN-10 must be 10 digits.", before any checksum
consideration; at the record level the error escapes regardless of the
state of every other field. -/
theorem length_check_rule :
    (∀ s : String, (isbnChars s).length ≠ 10 →
        isbn_10_validator s =
          Except.error { value := s, message := "ISBN-10 must be 10 digits." })
    ∧ (∀ (values : RawMapping) (s : String),
        lookupKey values "isbn_10" = some (Value.vStr s) →
        (isbnChars s).length ≠ 10 →
        validateBook values =
          Except.error (VError.isbn10Format s "ISBN-10 must be 10 digits.")) := by
  have hval : ∀ s : String, (isbnChars s).length ≠ 10 →
      isbn_10_validator s =
        Except.error { value := s, message := "ISBN-10 must be 10 digits." } := by
    intro s h
    simp only [isbn_10_validator]
    rw [if_pos h]
  constructor
  · exact hval
  · intro values s h hlen
    simp [validateBook, check_isbn10_and_isbn13, validate_isbn_10_field, h, hval s hlen]

/-- C7 witness: the record-level length rule applied to a mapping whose
isbn_10 is "12345"; every other field is even absent, and the format error
still escapes. -/
theorem length_check_rule_witness :
    lookupKey [("isbn_10", Value.vStr "12345")] "isbn_10" = some (Value.vStr "12345") ∧
    (isbnChars "12345").length ≠ 10 ∧
    validateBook [("isbn_10", Value.vStr "12345")] =
      Except.error (VError.isbn10Format "12345" "ISBN-10 must be 10 digits.") :=
  ⟨rfl, by decide, length_check_rule.2 _ "12345" rfl (by decide)⟩

/-- C8: every successfully constructed Book is immutable: attribute
assignment on any of the seven declared fields raises the TypeError of the
mutation-disallowing Config, producing no updated attribute store, so every
field keeps the value assigned at construction. -/
theorem immutability_rule :
    ∀ (values : RawMapping) (b : Book), validateBook values = Except.ok b →
      ∀ (f : FieldName) (v : Value),
        Book.setattr b f v =
          Except.error "\"Book\" is immutable and does not support item assignment" := by
  intro values b _ f v
  rfl

/-- C8 witness: the immutability rule applied to the Book constructed from a
concrete valid record, attempting to reassign its title. -/
theorem immutability_rule_witness :
    validateBook raw_ok_1 = Except.ok book_ok_1 ∧
      Book.setattr book_ok_1 FieldName.title (Value.vStr "Changed") =
        Except.error "\"Book\" is immutable and does not support item assignment" :=
  ⟨rfl, immutability_rule raw_ok_1 book_ok_1 rfl FieldName.title (Value.vStr "Changed")⟩

/-- C9: for every Book and every requested name set, the include and exclude
projections partition the declared field set: the union of their key sets is
exactly the declared field names, they are disjoint, and a name outside the
declared field set yields no entry in either projection. -/
theorem projection_partition :
    ∀ (b : Book) (s : List String) (n : String),
      ((n ∈ (Book.dict_include b s).map Prod.fst ∨
          n ∈ (Book.dict_exclude b s).map Prod.fst) ↔
        n ∈ Book.fields.map FieldName.name)
      ∧ ¬(n ∈ (Book.dict_include b s).map Prod.fst ∧
          n ∈ (Book.dict_exclude b s).map Prod.fst)
      ∧ (n ∉ Book.fields.map FieldName.name →
          n ∉ (Book.dict_include b s).map Prod.fst ∧
          n ∉ (Book.dict_exclude b s).map Prod.fst) := by
  intro b s n
  refine ⟨⟨?_, ?_⟩, ?_, ?_⟩
  · rintro (h | h)
    · obtain ⟨f, hf, _, rfl⟩ := (mem_dict_include_iff b s _).1 h
      exact List.mem_map.2 ⟨f, hf, rfl⟩
    · obtain ⟨f, hf, _, rfl⟩ := (mem_dict_exclude_iff b s _).1 h
      exact List.mem_map.2 ⟨f, hf, rfl⟩
  · intro hmem
    obtain ⟨f, hf, rfl⟩ := List.mem_map.1 hmem
    by_cases hc : f.name ∈ s
    · exact Or.inl ((mem_dict_include_iff b s _).2 ⟨f, hf, hc, rfl⟩)
    · exact Or.inr ((mem_dict_exclude_iff b s _).2 ⟨f, hf, hc, rfl⟩)
  · rintro ⟨h1, h2⟩
    obtain ⟨f1, hf1, hc1, hn1⟩ := (mem_dict_include_iff b s n).1 h1
    obtain ⟨f2, hf2, hc2, hn2⟩ := (mem_dict_exclude_iff b s n).1 h2
    exact hc2 (by rw [hn2, ← hn1]; exact hc1)
  · intro h
    constructor
    · intro hmem
      obtain ⟨f, hf, _, rfl⟩ := (mem_dict_include_iff b s _).1 hmem
      exact h (List.mem_map.2 ⟨f, hf, rfl⟩)
    · intro hmem
      obtain ⟨f, hf, _, rfl⟩ := (mem_dict_exclude_iff b s _).1 hmem
      exact h (List.mem_map.2 ⟨f, hf, rfl⟩)

/-- C9 witness: the unknown-name clause applied to a concrete Book, the
request set of the reference entry point, and the unknown name "series". -/
theorem projection_partition_witness :
    ("series" ∉ Book.fields.map FieldName.name) ∧
      ("series" ∉ (Book.dict_include book_ok_1 ["title", "author"]).map Prod.fst ∧
        "series" ∉ (Book.dict_exclude book_ok_1 ["title", "author"]).map Prod.fst) :=
  ⟨by decide, (projection_partition book_ok_1 ["title", "author"] "series").2.2 (by decide)⟩

/-- C10: a key outside the seven declared field names never influences
validation: inserting such a key-value pair into any raw mapping leaves the
result unchanged; concretely a valid record carrying an extra "series" key
validates to exactly the same seven-field Book as without it. -/
theorem extra_keys_ignored :
    (∀ (values : RawMapping) (k : String) (v : Value),
        k ∉ Book.fields.map FieldName.name →
        validateBook ((k, v) :: values) = validateBook values)
    ∧ validateBook (("series", Value.vStr "Pragmatic") :: raw_ok_1) = Except.ok book_ok_1
    ∧ validateBook raw_ok_1 = Except.ok book_ok_1 := by
  refine ⟨?_, rfl, rfl⟩
  intro values k v h
  have hn : ∀ name : String, name ∈ Book.fields.map FieldName.name → k ≠ name :=
    fun name hm heq => h (heq ▸ hm)
  have e1 := lookupKey_cons_ne k "title" v values (hn _ (by decide))
  have e2 := lookupKey_cons_ne k "author" v values (hn _ (by decide))
  have e3 := lookupKey_cons_ne k "publisher" v values (hn _ (by decide))
  have e4 := lookupKey_cons_ne k "price" v values (hn _ (by decide))
  have e5 := lookupKey_cons_ne k "isbn_10" v values (hn _ (by decide))
  have e6 := lookupKey_cons_ne k "isbn_13" v values (hn _ (by decide))
  have e7 := lookupKey_cons_ne k "subtitle" v values (hn _ (by decide))
  simp only [validateBook, check_isbn10_and_isbn13, e1, e5, e6]
  split_ifs with hcond
  · rfl
  · simp only [validate_str_field, validate_float_field, validate_isbn_10_field,
      plain_optional_str, e1, e2, e3, e4, e5, e6, e7]

/-- C10 witness: the insertion rule applied to the concrete valid record and
the unknown key "series". -/
theorem extra_keys_ignored_witness :
    ("series" ∉ Book.fields.map FieldName.name) ∧
      validateBook (("series", Value.vStr "Pragmatic") :: raw_ok_1) = validateBook raw_ok_1 :=
  ⟨by decide, extra_keys_ignored.1 raw_ok_1 "series" (Value.vStr "Pragmatic") (by decide)⟩
